import Mathlib

/-!
Shallow embedding of the NOAA solar-position engine of the `hora-argentina`
repository: `src/hora_argentina/noaa_solar_calculations.py` (the calculation
chain, the yearly sweep and the table formatter) and `solar_times.py` (the
configuration validator, the single-instant CLI pipeline and its formatter).

Python `float` arithmetic is modelled by exact real arithmetic.  The two
Python exceptions that the code can raise and catch (`ValueError` from
`math.acos` on an argument outside `[-1, 1]`, and `ZeroDivisionError` from
a float division by an exact zero) are modelled with `Except`; a value
caught by the yearly sweep's `try/except` and stored as `None` in a table
cell is modelled with `Option`.

`datetime.date` / `datetime.datetime` values are modelled by explicit
calendar structures; `datetime - timedelta(hours=h)` is modelled by exact
arithmetic on a microsecond timeline (Python's `timedelta` resolution)
together with the standard Gregorian civil-from-days / days-from-civil
conversion that `datetime` performs internally.
-/

open Real

/-- Models `datetime.date`: a Gregorian calendar date.  Python compares
dates lexicographically on (year, month, day). -/
structure Date where
  year : Nat
  month : Nat
  day : Nat
deriving DecidableEq, Repr

/-- Python `datetime.date` ordering, as a boolean: lexicographic on
(year, month, day). -/
def Date.leb (a b : Date) : Bool :=
  a.year < b.year ||
    (a.year == b.year &&
      (a.month < b.month || (a.month == b.month && a.day ≤ b.day)))

/-- Strict lexicographic order on dates, as a boolean. -/
def Date.ltb (a b : Date) : Bool :=
  a.year < b.year ||
    (a.year == b.year &&
      (a.month < b.month || (a.month == b.month && a.day < b.day)))

instance : LE Date := ⟨fun a b => Date.leb a b = true⟩

instance : LT Date := ⟨fun a b => Date.ltb a b = true⟩

instance (a b : Date) : Decidable (a ≤ b) :=
  inferInstanceAs (Decidable (Date.leb a b = true))

instance (a b : Date) : Decidable (a < b) :=
  inferInstanceAs (Decidable (Date.ltb a b = true))

/-- Gregorian leap-year rule (as used by Python's `datetime`). -/
def isLeapYear (y : Nat) : Bool :=
  (y % 4 == 0 && y % 100 != 0) || y % 400 == 0

/-- Number of days in a Gregorian month. -/
def daysInMonth (y m : Nat) : Nat :=
  if m = 2 then (if isLeapYear y then 29 else 28)
  else if m = 4 ∨ m = 6 ∨ m = 9 ∨ m = 11 then 30
  else 31

/-- Models `current_date += timedelta(days=1)` on a `datetime.date`. -/
def nextDate (d : Date) : Date :=
  if d.day < daysInMonth d.year d.month then ⟨d.year, d.month, d.day + 1⟩
  else if d.month < 12 then ⟨d.year, d.month + 1, 1⟩
  else ⟨d.year + 1, 1, 1⟩

/-- The date list produced by the `while current_date <= end_date` loop of
`yearly_sun_times_dataframe`, with an explicit fuel bound (one calendar year
never exceeds 366 days, so fuel 367 suffices for the full-year loop). -/
def loopDates : Nat → Date → Date → List Date
  | 0, _, _ => []
  | fuel + 1, cur, endD =>
      if cur ≤ endD then cur :: loopDates fuel (nextDate cur) endD else []

/-- Models `datetime.datetime`: calendar components down to microseconds. -/
structure DateTime where
  year : Int
  month : Nat
  day : Nat
  hour : Nat
  minute : Nat
  second : Nat
  microsecond : Nat
deriving DecidableEq, Repr

/-- Days since 1970-01-01 of a Gregorian date (the standard civil-calendar
day count that `datetime.toordinal` is an affine shift of). -/
def daysFromCivil (y : Int) (m d : Nat) : Int :=
  let y' : Int := if m ≤ 2 then y - 1 else y
  let era : Int := y'.fdiv 400
  let yoe : Int := y' - era * 400
  let mp : Int := (((m : Int) + 9).emod 12)
  let doy : Int := (153 * mp + 2).fdiv 5 + (d : Int) - 1
  let doe : Int := yoe * 365 + yoe.fdiv 4 - yoe.fdiv 100 + doy
  era * 146097 + doe - 719468

/-- Gregorian date from a days-since-1970 count (inverse of
`daysFromCivil`); the conversion `datetime.fromordinal` performs. -/
def civilFromDays (z : Int) : Int × Nat × Nat :=
  let z' := z + 719468
  let era : Int := z'.fdiv 146097
  let doe : Nat := (z' - era * 146097).toNat
  let yoe : Nat := (doe - doe / 1460 + doe / 36524 - doe / 146096) / 365
  let doy : Nat := doe - (365 * yoe + yoe / 4 - yoe / 100)
  let mp : Nat := (5 * doy + 2) / 153
  let d : Nat := doy - (153 * mp + 2) / 5 + 1
  if mp < 10 then ((yoe : Int) + era * 400, mp + 3, d)
  else ((yoe : Int) + era * 400 + 1, mp - 9, d)

/-- Subtracts a duration of `delta` microseconds from a `DateTime`
(models `datetime - timedelta(...)`, which Python evaluates exactly on a
microsecond timeline). -/
def dtSubMicro (dt : DateTime) (delta : Int) : DateTime :=
  let days := daysFromCivil dt.year dt.month dt.day
  let micro : Int :=
    (((dt.hour * 3600 + dt.minute * 60 + dt.second) * 1000000 + dt.microsecond : Nat) : Int)
  let total : Int := days * 86400000000 + micro - delta
  let d2 : Int := total.fdiv 86400000000
  let rem : Nat := (total - d2 * 86400000000).toNat
  let c := civilFromDays d2
  let s : Nat := rem / 1000000
  ⟨c.1, c.2.1, c.2.2, s / 3600, (s % 3600) / 60, s % 60, rem % 1000000⟩

/-- The integer (date-part) Julian Day Number formula of
`date_to_julian_day` (lines `a = (14 - month) // 12` through `jd_date`),
with Python's `//` floor division rendered as `Int.fdiv`. -/
def jdnFromComponents (year : Int) (month day : Nat) : Int :=
  let a : Int := (14 - (month : Int)).fdiv 12
  let y : Int := year + 4800 - a
  let m : Int := (month : Int) + 12 * a - 3
  (day : Int) + (153 * m + 2).fdiv 5 + 365 * y + y.fdiv 4 - y.fdiv 100
    + y.fdiv 400 - 32045

/-- The two Python exceptions the solar code can raise and the yearly sweep
catches: `ValueError` (from `math.acos` outside `[-1, 1]`) and
`ZeroDivisionError`. -/
inductive PyErr where
  | valueError
  | zeroDivisionError
deriving DecidableEq, Repr

/-- Python's `f"{n:02d}"`: decimal rendering of an integer, left-padded
with `0` to width 2 (a negative number keeps its sign and is only padded
when shorter than the width, so `-30` renders as `"-30"`). -/
def fmt2 (n : Int) : String :=
  if 0 ≤ n ∧ n < 10 then "0" ++ toString n else toString n

/-- Time-of-day components of the optional `time` configuration entry of
`solar_times.py`. -/
structure TimeOfDay where
  hour : Nat
  minute : Nat
  second : Nat
deriving DecidableEq, Repr

/-- Whether a (year, month, day) triple is an actual Gregorian calendar
date: the check `datetime.fromisoformat(config["date"])` performs. -/
def validDate (d : Date) : Bool :=
  1 ≤ d.month && d.month ≤ 12 && 1 ≤ d.day && d.day ≤ daysInMonth d.year d.month

/-- Whether the optional time entry is a valid wall-clock time: the check
`datetime.strptime(config["time"], ...)` performs. -/
def validTime (t : TimeOfDay) : Bool :=
  t.hour ≤ 23 && t.minute ≤ 59 && t.second ≤ 59

/-- Linear strict-chronological-order check on a date list (adjacent
elements strictly increasing). -/
def chronological : List Date → Bool
  | [] => true
  | [_] => true
  | a :: b :: rest => a.ltb b && chronological (b :: rest)

open scoped Classical

noncomputable section

/-- `math.radians`: degrees to radians, `x * pi / 180`. -/
def radians (x : ℝ) : ℝ := x * π / 180

/-- `math.degrees`: radians to degrees, `x * 180 / pi`. -/
def degrees (x : ℝ) : ℝ := x * 180 / π

/-- Python float `%` with a positive divisor:
`x % y = x - y * floor (x / y)` (result takes the divisor's sign). -/
def pymod (x y : ℝ) : ℝ := x - y * ⌊x / y⌋

/-- Python `int(...)` applied to a float: truncation toward zero. -/
def pyInt (x : ℝ) : Int := if 0 ≤ x then ⌊x⌋ else ⌈x⌉

/-- `julian_century`: convert Julian Day to Julian Century. -/
def julian_century (julian_day : ℝ) : ℝ := (julian_day - 2451545.0) / 36525.0

/-- `geom_mean_long_sun`: Geometric Mean Longitude of the Sun (degrees),
reduced with Python's `% 360`. -/
def geom_mean_long_sun (jc : ℝ) : ℝ :=
  pymod (280.46646 + jc * (36000.76983 + jc * 0.0003032)) 360

/-- `geom_mean_anom_sun`: Geometric Mean Anomaly of the Sun (degrees). -/
def geom_mean_anom_sun (jc : ℝ) : ℝ :=
  357.52911 + jc * (35999.05029 - 0.0001537 * jc)

/-- `eccent_earth_orbit`: eccentricity of Earth's orbit. -/
def eccent_earth_orbit (jc : ℝ) : ℝ :=
  0.016708634 - jc * (0.000042037 + 0.0000001267 * jc)

/-- `sun_eq_of_center`: the Sun's Equation of Center (degrees). -/
def sun_eq_of_center (jc : ℝ) : ℝ :=
  let m_rad := radians (geom_mean_anom_sun jc)
  Real.sin m_rad * (1.914602 - jc * (0.004817 + 0.000014 * jc))
    + Real.sin (2 * m_rad) * (0.019993 - 0.000101 * jc)
    + Real.sin (3 * m_rad) * 0.000289

/-- `sun_true_long`: the Sun's True Longitude (degrees). -/
def sun_true_long (jc : ℝ) : ℝ := geom_mean_long_sun jc + sun_eq_of_center jc

/-- `sun_apparent_long`: the Sun's Apparent Longitude (degrees). -/
def sun_apparent_long (jc : ℝ) : ℝ :=
  sun_true_long jc - 0.00569 - 0.00478 * Real.sin (radians (125.04 - 1934.136 * jc))

/-- `mean_obliq_ecliptic`: Mean Obliquity of the Ecliptic (degrees). -/
def mean_obliq_ecliptic (jc : ℝ) : ℝ :=
  23.0 + (26.0 + (21.448 - jc * (46.8150 + jc * (0.00059 - jc * 0.001813))) / 60.0) / 60.0

/-- `obliq_corr`: corrected Obliquity of the Ecliptic (degrees). -/
def obliq_corr (jc : ℝ) : ℝ :=
  mean_obliq_ecliptic jc + 0.00256 * Real.cos (radians (125.04 - 1934.136 * jc))

/-- `var_y`: the auxiliary variable Y of the Equation of Time. -/
def var_y (jc : ℝ) : ℝ := Real.tan (radians (obliq_corr jc) / 2.0) ^ 2

/-- `sun_declination`: the Sun's Declination (degrees). -/
def sun_declination (jc : ℝ) : ℝ :=
  degrees (Real.arcsin
    (Real.sin (radians (obliq_corr jc)) * Real.sin (radians (sun_apparent_long jc))))

/-- `equation_of_time`: the Equation of Time (minutes). -/
def equation_of_time (jc : ℝ) : ℝ :=
  let y := var_y jc
  let L0 := geom_mean_long_sun jc
  let e := eccent_earth_orbit jc
  let M := geom_mean_anom_sun jc
  degrees
    (y * Real.sin (2.0 * radians L0)
      - 2.0 * e * Real.sin (radians M)
      + 4.0 * e * y * Real.sin (radians M) * Real.cos (2.0 * radians L0)
      - 0.5 * y * y * Real.sin (4.0 * radians L0)
      - 1.25 * e * e * Real.sin (2.0 * radians M)) * 4.0

/-- The argument handed to `acos` inside `hour_angle`. -/
def cosArgExpr (latitude jc solar_elevation : ℝ) : ℝ :=
  Real.cos (radians (90.0 - solar_elevation))
      / (Real.cos (radians latitude) * Real.cos (radians (sun_declination jc)))
    - Real.tan (radians latitude) * Real.tan (radians (sun_declination jc))

/-- `hour_angle`: Hour Angle (degrees) for the given solar elevation.
A division by an exact zero raises `ZeroDivisionError`; `math.acos` of an
argument outside `[-1, 1]` raises `ValueError`; both surface as `Except`
errors, exactly the two exception classes the yearly sweep catches. -/
def hour_angle (latitude jc solar_elevation : ℝ) : Except PyErr ℝ :=
  if Real.cos (radians latitude) * Real.cos (radians (sun_declination jc)) = 0 then
    .error .zeroDivisionError
  else if cosArgExpr latitude jc solar_elevation < -1 ∨
      1 < cosArgExpr latitude jc solar_elevation then
    .error .valueError
  else
    .ok (degrees (Real.arccos (cosArgExpr latitude jc solar_elevation)))

/-- `solar_noon`: Solar Noon (decimal local hours). -/
def solar_noon (longitude timezone_offset julian_day : ℝ) : ℝ :=
  let jc := julian_century julian_day
  let eq_time := equation_of_time jc
  let solar_noon_utc := (720 - 4.0 * longitude - eq_time) / 60.0
  solar_noon_utc + timezone_offset

/-- `sunrise`: Sunrise (decimal local hours); the `hour_angle` exception,
if any, propagates out of the call uncaught. -/
def sunrise (latitude longitude timezone_offset julian_day : ℝ)
    (solar_elevation : ℝ := -0.833) : Except PyErr ℝ :=
  let jc := julian_century julian_day
  (hour_angle latitude jc solar_elevation).bind fun ha =>
    let solar_noon_time := solar_noon longitude timezone_offset julian_day
    .ok (solar_noon_time - ha / 15.0)

/-- `sunset`: Sunset (decimal local hours); the `hour_angle` exception,
if any, propagates out of the call uncaught. -/
def sunset (latitude longitude timezone_offset julian_day : ℝ)
    (solar_elevation : ℝ := -0.833) : Except PyErr ℝ :=
  let jc := julian_century julian_day
  (hour_angle latitude jc solar_elevation).bind fun ha =>
    let solar_noon_time := solar_noon longitude timezone_offset julian_day
    .ok (solar_noon_time + ha / 15.0)

/-- `date_to_julian_day` on a `datetime` input: convert local wall-clock to
UTC by subtracting the offset (`timedelta(hours=utc_offset)`, rounded by
Python to whole microseconds), apply the Gregorian Julian-Day-Number
formula to the date part, add the time-of-day fraction, subtract 0.5. -/
def date_to_julian_day_dt (target : DateTime) (utc_offset : ℝ) : ℝ :=
  let utc := dtSubMicro target (round (utc_offset * 3600000000))
  let jd_date := jdnFromComponents utc.year utc.month utc.day
  let time_fraction := ((utc.hour : ℝ) + (utc.minute : ℝ) / 60.0 + (utc.second : ℝ) / 3600.0) / 24.0
  (jd_date : ℝ) + time_fraction - 0.5

/-- `date_to_julian_day` on a `datetime.date` input: the date is combined
with local noon (`datetime.min.time().replace(hour=12)`) and converted. -/
def date_to_julian_day (target : Date) (utc_offset : ℝ) : ℝ :=
  date_to_julian_day_dt ⟨(target.year : Int), target.month, target.day, 12, 0, 0, 0⟩ utc_offset

/-- Models the two `while` loops of the table formatter
`decimal_hours_to_time_string` (add 24 while negative, subtract 24 while
`>= 24`): the unique representative of `x` modulo 24 inside `[0, 24)`. -/
def wrap24 (x : ℝ) : ℝ := x - 24 * ⌊x / 24⌋

/-- `decimal_hours_to_time_string` of `noaa_solar_calculations.py`:
`None`/`NaN` input gives `None`; otherwise the value is wrapped into
`[0, 24)` and rendered `HH:MM:SS` with Python `int` truncation. -/
def decimal_hours_to_time_string (decimal_hours : Option ℝ) : Option String :=
  match decimal_hours with
  | none => none
  | some dh =>
      let w := wrap24 dh
      let hours := pyInt w
      let minutes := pyInt ((w - (hours : ℝ)) * 60)
      let seconds := pyInt (((w - (hours : ℝ)) * 60 - (minutes : ℝ)) * 60)
      some (fmt2 hours ++ ":" ++ fmt2 minutes ++ ":" ++ fmt2 seconds)

/-- `decimal_hours_to_time_string` of `solar_times.py`: `None` gives
`"N/A"`; otherwise `hours = int(dh) % 24`, `minutes = int((dh - int(dh)) * 60)`,
`seconds = int(((dh - int(dh)) * 60 - minutes) * 60)`, each through Python
`int` truncation toward zero. -/
def decimal_hours_to_time_string_cli (decimal_hours : Option ℝ) : String :=
  match decimal_hours with
  | none => "N/A"
  | some dh =>
      let hours := (pyInt dh).emod 24
      let minutes := pyInt ((dh - (pyInt dh : ℝ)) * 60)
      let seconds := pyInt (((dh - (pyInt dh : ℝ)) * 60 - (minutes : ℝ)) * 60)
      fmt2 hours ++ ":" ++ fmt2 minutes ++ ":" ++ fmt2 seconds

/-- One (day, threshold) cell pair of the yearly sweep: the body of the
`try` block computes sunrise then sunset and appends both values; if either
raises `ValueError` or `ZeroDivisionError` the `except` branch appends
`None` to both columns instead. -/
def cellPair (latitude longitude timezone_offset julian_day elevation : ℝ) :
    Option ℝ × Option ℝ :=
  match sunrise latitude longitude timezone_offset julian_day elevation,
      sunset latitude longitude timezone_offset julian_day elevation with
  | .ok a, .ok b => (some a, some b)
  | _, _ => (none, none)

/-- The columns of the `pandas.DataFrame` built by
`yearly_sun_times_dataframe`: the `date` column plus one sunrise and one
sunset column per twilight definition, in the order the code creates
them. -/
structure SweepData where
  dates : List Date
  official_sunrise : List (Option ℝ)
  official_sunset : List (Option ℝ)
  civil_sunrise : List (Option ℝ)
  civil_sunset : List (Option ℝ)
  nautical_sunrise : List (Option ℝ)
  nautical_sunset : List (Option ℝ)
  astronomical_sunrise : List (Option ℝ)
  astronomical_sunset : List (Option ℝ)

/-- The empty accumulator the sweep starts from. -/
def SweepData.empty : SweepData := ⟨[], [], [], [], [], [], [], [], []⟩

/-- The `while current_date <= end_date` loop of
`yearly_sun_times_dataframe`: each iteration appends the date and, for each
of the four twilight angles, the guarded sunrise/sunset cell pair.  The
fuel argument bounds the iteration count (367 covers any calendar year). -/
def sweepLoop (latitude longitude timezone_offset : ℝ) :
    Nat → Date → Date → SweepData
  | 0, _, _ => SweepData.empty
  | fuel + 1, cur, endD =>
      if cur ≤ endD then
        let julian_day := date_to_julian_day cur timezone_offset
        let official := cellPair latitude longitude timezone_offset julian_day (-0.833)
        let civil := cellPair latitude longitude timezone_offset julian_day (-6.0)
        let nautical := cellPair latitude longitude timezone_offset julian_day (-12.0)
        let astronomical := cellPair latitude longitude timezone_offset julian_day (-18.0)
        let rest := sweepLoop latitude longitude timezone_offset fuel (nextDate cur) endD
        ⟨cur :: rest.dates,
          official.1 :: rest.official_sunrise, official.2 :: rest.official_sunset,
          civil.1 :: rest.civil_sunrise, civil.2 :: rest.civil_sunset,
          nautical.1 :: rest.nautical_sunrise, nautical.2 :: rest.nautical_sunset,
          astronomical.1 :: rest.astronomical_sunrise,
          astronomical.2 :: rest.astronomical_sunset⟩
      else SweepData.empty

/-- `yearly_sun_times_dataframe` for an explicitly given year: sweep every
calendar day from January 1 to December 31 (the `year=None` current-year
defaulting is outside the model). -/
def yearly_sun_times_dataframe (latitude longitude timezone_offset : ℝ)
    (year : Nat) : SweepData :=
  sweepLoop latitude longitude timezone_offset 367 ⟨year, 1, 1⟩ ⟨year, 12, 31⟩

/-- The per-day cell function of one sweep column: sunrise column when
`rise` is `true`, sunset column otherwise. -/
def sweepCell (latitude longitude timezone_offset : ℝ) (elevation : ℝ)
    (rise : Bool) (d : Date) : Option ℝ :=
  let p := cellPair latitude longitude timezone_offset
    (date_to_julian_day d timezone_offset) elevation
  if rise then p.1 else p.2

/-- The configuration record `solar_times.py` reads from `config.txt`,
after JSON parsing: the four required fields and the optional `time`. -/
structure Config where
  date : Date
  time : Option TimeOfDay
  utc_offset : ℝ
  latitude : ℝ
  longitude : ℝ

/-- The failure modes of the CLI `main`: each `validate_config` rejection
(which calls `sys.exit(1)`), or an uncaught Python exception escaping the
calculation chain. -/
inductive MainErr where
  | invalidLatitude
  | invalidLongitude
  | invalidUtcOffset
  | invalidDateFormat
  | invalidTimeFormat
  | uncaught (e : PyErr)

/-- `validate_config` of `solar_times.py`, in the source's check order:
latitude range, longitude range, UTC-offset range, date format, optional
time format.  `none` means validation passed. -/
def validate_config (config : Config) : Option MainErr :=
  if ¬(-90 ≤ config.latitude ∧ config.latitude ≤ 90) then some .invalidLatitude
  else if ¬(-180 ≤ config.longitude ∧ config.longitude ≤ 180) then some .invalidLongitude
  else if ¬(-12 ≤ config.utc_offset ∧ config.utc_offset ≤ 14) then some .invalidUtcOffset
  else if ¬(validDate config.date) then some .invalidDateFormat
  else
    match config.time with
    | some t => if ¬(validTime t) then some .invalidTimeFormat else none
    | none => none

/-- Everything `main` computes and prints for a single instant: the full
intermediate chain plus the three event times and their `HH:MM:SS`
renderings. -/
structure MainOutput where
  julianDay : ℝ
  julianCentury : ℝ
  geomMeanLong : ℝ
  geomMeanAnom : ℝ
  eccentOrbit : ℝ
  sunEqCenter : ℝ
  sunTrueLongitude : ℝ
  sunApparentLongitude : ℝ
  meanObliq : ℝ
  obliqCorrection : ℝ
  varYValue : ℝ
  sunDecl : ℝ
  hourAngleValue : ℝ
  eqTime : ℝ
  sunriseTime : ℝ
  sunsetTime : ℝ
  noonTime : ℝ
  sunriseStr : String
  sunsetStr : String
  noonStr : String

/-- `main` of `solar_times.py`: validate the configuration, build the
local datetime (time defaults to `12:00:00`), convert to Julian Day, then
run the calculation chain in source order.  The bare `hour_angle` call of
line 188 and the `sunrise`/`sunset` calls have no surrounding `try`, so a
`ValueError` raised for a polar configuration escapes `main` uncaught. -/
def mainSolar (config : Config) : Except MainErr MainOutput :=
  match validate_config config with
  | some e => .error e
  | none =>
      let target_time := config.time.getD ⟨12, 0, 0⟩
      let target_datetime : DateTime :=
        ⟨(config.date.year : Int), config.date.month, config.date.day,
          target_time.hour, target_time.minute, target_time.second, 0⟩
      let julian_day := date_to_julian_day_dt target_datetime config.utc_offset
      let jc := julian_century julian_day
      match hour_angle config.latitude jc (-0.833) with
      | .error e => .error (.uncaught e)
      | .ok hour_angle_value =>
          match sunrise config.latitude config.longitude config.utc_offset julian_day,
              sunset config.latitude config.longitude config.utc_offset julian_day with
          | .ok sunrise_time, .ok sunset_time =>
              let noon_time := solar_noon config.longitude config.utc_offset julian_day
              .ok
                { julianDay := julian_day
                  julianCentury := jc
                  geomMeanLong := geom_mean_long_sun jc
                  geomMeanAnom := geom_mean_anom_sun jc
                  eccentOrbit := eccent_earth_orbit jc
                  sunEqCenter := sun_eq_of_center jc
                  sunTrueLongitude := sun_true_long jc
                  sunApparentLongitude := sun_apparent_long jc
                  meanObliq := mean_obliq_ecliptic jc
                  obliqCorrection := obliq_corr jc
                  varYValue := var_y jc
                  sunDecl := sun_declination jc
                  hourAngleValue := hour_angle_value
                  eqTime := equation_of_time jc
                  sunriseTime := sunrise_time
                  sunsetTime := sunset_time
                  noonTime := noon_time
                  sunriseStr := decimal_hours_to_time_string_cli (some sunrise_time)
                  sunsetStr := decimal_hours_to_time_string_cli (some sunset_time)
                  noonStr := decimal_hours_to_time_string_cli (some noon_time) }
          | .error e, _ => .error (.uncaught e)
          | _, .error e => .error (.uncaught e)

/-- The display formula exactly as the specification words it (modelled
from the spec for refinement comparison, not from the source):
`hours = floor(decimalHours) mod 24`, `minutes = floor(fractional * 60)`,
`seconds = floor(fractional minute * 60)`, rendered `HH:MM:SS`. -/
def specHMS (x : ℝ) : String :=
  let hours := (⌊x⌋).emod 24
  let minutes := ⌊(x - (⌊x⌋ : ℝ)) * 60⌋
  let seconds := ⌊((x - (⌊x⌋ : ℝ)) * 60 - (⌊(x - (⌊x⌋ : ℝ)) * 60⌋ : ℝ)) * 60⌋
  fmt2 hours ++ ":" ++ fmt2 minutes ++ ":" ++ fmt2 seconds

end

/-! ### Structural lemmas about the event functions and the sweep -/

theorem sunrise_eq_map (latitude longitude timezone_offset julian_day solar_elevation : ℝ) :
    sunrise latitude longitude timezone_offset julian_day solar_elevation =
      (hour_angle latitude (julian_century julian_day) solar_elevation).map
        (fun ha => solar_noon longitude timezone_offset julian_day - ha / 15) := by
  simp only [sunrise]
  cases h : hour_angle latitude (julian_century julian_day) solar_elevation with
  | ok v =>
      simp [h, Except.map, Except.bind]
      norm_num
  | error e => simp [h, Except.map, Except.bind]

theorem sunset_eq_map (latitude longitude timezone_offset julian_day solar_elevation : ℝ) :
    sunset latitude longitude timezone_offset julian_day solar_elevation =
      (hour_angle latitude (julian_century julian_day) solar_elevation).map
        (fun ha => solar_noon longitude timezone_offset julian_day + ha / 15) := by
  simp only [sunset]
  cases h : hour_angle latitude (julian_century julian_day) solar_elevation with
  | ok v =>
      simp [h, Except.map, Except.bind]
      norm_num
  | error e => simp [h, Except.map, Except.bind]

theorem cellPair_of_ok (latitude longitude timezone_offset julian_day elevation h : ℝ)
    (hha : hour_angle latitude (julian_century julian_day) elevation = .ok h) :
    cellPair latitude longitude timezone_offset julian_day elevation =
      (some (solar_noon longitude timezone_offset julian_day - h / 15),
       some (solar_noon longitude timezone_offset julian_day + h / 15)) := by
  unfold cellPair
  rw [sunrise_eq_map, sunset_eq_map, hha]
  rfl

theorem cellPair_of_error (latitude longitude timezone_offset julian_day elevation : ℝ)
    (e : PyErr)
    (hha : hour_angle latitude (julian_century julian_day) elevation = .error e) :
    cellPair latitude longitude timezone_offset julian_day elevation = (none, none) := by
  unfold cellPair
  rw [sunrise_eq_map, sunset_eq_map, hha]
  rfl

theorem cellPair_fst_none_iff (latitude longitude timezone_offset julian_day elevation : ℝ) :
    (cellPair latitude longitude timezone_offset julian_day elevation).1 = none ↔
      ∃ e, hour_angle latitude (julian_century julian_day) elevation = .error e := by
  unfold cellPair
  rw [sunrise_eq_map, sunset_eq_map]
  cases h : hour_angle latitude (julian_century julian_day) elevation <;>
    simp [Except.map]

theorem cellPair_snd_none_iff (latitude longitude timezone_offset julian_day elevation : ℝ) :
    (cellPair latitude longitude timezone_offset julian_day elevation).2 = none ↔
      ∃ e, hour_angle latitude (julian_century julian_day) elevation = .error e := by
  unfold cellPair
  rw [sunrise_eq_map, sunset_eq_map]
  cases h : hour_angle latitude (julian_century julian_day) elevation <;>
    simp [Except.map]

/-- The sweep loop is the date loop together with one independent guarded
computation per (day, threshold) cell: every column is the map of its cell
function over the generated date list. -/
theorem sweepLoop_eq (latitude longitude timezone_offset : ℝ) :
    ∀ (fuel : Nat) (cur endD : Date),
      sweepLoop latitude longitude timezone_offset fuel cur endD =
        ⟨loopDates fuel cur endD,
         (loopDates fuel cur endD).map
           (sweepCell latitude longitude timezone_offset (-0.833) true),
         (loopDates fuel cur endD).map
           (sweepCell latitude longitude timezone_offset (-0.833) false),
         (loopDates fuel cur endD).map
           (sweepCell latitude longitude timezone_offset (-6.0) true),
         (loopDates fuel cur endD).map
           (sweepCell latitude longitude timezone_offset (-6.0) false),
         (loopDates fuel cur endD).map
           (sweepCell latitude longitude timezone_offset (-12.0) true),
         (loopDates fuel cur endD).map
           (sweepCell latitude longitude timezone_offset (-12.0) false),
         (loopDates fuel cur endD).map
           (sweepCell latitude longitude timezone_offset (-18.0) true),
         (loopDates fuel cur endD).map
           (sweepCell latitude longitude timezone_offset (-18.0) false)⟩
  | 0, cur, endD => rfl
  | fuel + 1, cur, endD => by
      by_cases h : cur ≤ endD
      · simp only [sweepLoop, loopDates, if_pos h, List.map_cons,
          sweepLoop_eq latitude longitude timezone_offset fuel (nextDate cur) endD]
        rfl
      · simp only [sweepLoop, loopDates, if_neg h, List.map_nil]
        rfl

theorem cellPair_isNone_matched (latitude longitude timezone_offset julian_day elevation : ℝ) :
    ((cellPair latitude longitude timezone_offset julian_day elevation).1).isNone =
      ((cellPair latitude longitude timezone_offset julian_day elevation).2).isNone := by
  cases h : hour_angle latitude (julian_century julian_day) elevation with
  | ok v =>
      rw [cellPair_of_ok latitude longitude timezone_offset julian_day elevation v h]
      rfl
  | error e =>
      rw [cellPair_of_error latitude longitude timezone_offset julian_day elevation e h]

/-- C4 (confirmed): solar noon in decimal local hours is
`(720 - 4 * longitude - equationOfTime(century)) / 60 + utcOffsetHours`,
and whenever the hour angle is defined, sunrise is solar noon minus
`hourAngle / 15` and sunset is solar noon plus `hourAngle / 15` (the
`Except.map` form states exactly the "whenever defined" relationship). -/
theorem C4_solar_noon_and_event_formulas
    (latitude longitude timezone_offset julian_day solar_elevation : ℝ) :
    solar_noon longitude timezone_offset julian_day =
        (720 - 4 * longitude - equation_of_time (julian_century julian_day)) / 60
          + timezone_offset
      ∧ sunrise latitude longitude timezone_offset julian_day solar_elevation =
          (hour_angle latitude (julian_century julian_day) solar_elevation).map
            (fun ha => solar_noon longitude timezone_offset julian_day - ha / 15)
      ∧ sunset latitude longitude timezone_offset julian_day solar_elevation =
          (hour_angle latitude (julian_century julian_day) solar_elevation).map
            (fun ha => solar_noon longitude timezone_offset julian_day + ha / 15) := by
  refine ⟨?_, sunrise_eq_map _ _ _ _ _, sunset_eq_map _ _ _ _ _⟩
  simp only [solar_noon]
  norm_num

/-- C2 (confirmed): each of the eight sunrise/sunset columns of the yearly
sweep is the map, over the generated date list, of an independent per-cell
guarded computation; a cell is `none` (absent) exactly when the hour-angle
computation for that day and threshold raises, and an undefined cell only
affects its own entry — the sweep is total and every other cell is still
computed. -/
theorem C2_sweep_cells_absent_iff_undefined
    (latitude longitude timezone_offset : ℝ) (year : Nat) :
    ((yearly_sun_times_dataframe latitude longitude timezone_offset year).official_sunrise =
        (yearly_sun_times_dataframe latitude longitude timezone_offset year).dates.map
          (sweepCell latitude longitude timezone_offset (-0.833) true)
      ∧ (yearly_sun_times_dataframe latitude longitude timezone_offset year).official_sunset =
        (yearly_sun_times_dataframe latitude longitude timezone_offset year).dates.map
          (sweepCell latitude longitude timezone_offset (-0.833) false)
      ∧ (yearly_sun_times_dataframe latitude longitude timezone_offset year).civil_sunrise =
        (yearly_sun_times_dataframe latitude longitude timezone_offset year).dates.map
          (sweepCell latitude longitude timezone_offset (-6.0) true)
      ∧ (yearly_sun_times_dataframe latitude longitude timezone_offset year).civil_sunset =
        (yearly_sun_times_dataframe latitude longitude timezone_offset year).dates.map
          (sweepCell latitude longitude timezone_offset (-6.0) false)
      ∧ (yearly_sun_times_dataframe latitude longitude timezone_offset year).nautical_sunrise =
        (yearly_sun_times_dataframe latitude longitude timezone_offset year).dates.map
          (sweepCell latitude longitude timezone_offset (-12.0) true)
      ∧ (yearly_sun_times_dataframe latitude longitude timezone_offset year).nautical_sunset =
        (yearly_sun_times_dataframe latitude longitude timezone_offset year).dates.map
          (sweepCell latitude longitude timezone_offset (-12.0) false)
      ∧ (yearly_sun_times_dataframe latitude longitude timezone_offset year).astronomical_sunrise =
        (yearly_sun_times_dataframe latitude longitude timezone_offset year).dates.map
          (sweepCell latitude longitude timezone_offset (-18.0) true)
      ∧ (yearly_sun_times_dataframe latitude longitude timezone_offset year).astronomical_sunset =
        (yearly_sun_times_dataframe latitude longitude timezone_offset year).dates.map
          (sweepCell latitude longitude timezone_offset (-18.0) false))
    ∧ ∀ (d : Date) (elevation : ℝ),
        (sweepCell latitude longitude timezone_offset elevation true d = none ↔
          ∃ e, hour_angle latitude
            (julian_century (date_to_julian_day d timezone_offset)) elevation = .error e)
        ∧ (sweepCell latitude longitude timezone_offset elevation false d = none ↔
          ∃ e, hour_angle latitude
            (julian_century (date_to_julian_day d timezone_offset)) elevation = .error e) := by
  constructor
  · rw [yearly_sun_times_dataframe, sweepLoop_eq]
    exact ⟨rfl, rfl, rfl, rfl, rfl, rfl, rfl, rfl⟩
  · intro d elevation
    constructor
    · simpa only [sweepCell, if_pos] using
        cellPair_fst_none_iff latitude longitude timezone_offset
          (date_to_julian_day d timezone_offset) elevation
    · simpa only [sweepCell, if_neg] using
        cellPair_snd_none_iff latitude longitude timezone_offset
          (date_to_julian_day d timezone_offset) elevation

/-- C9 (confirmed): in every row of the yearly sweep and for every
threshold, the sunrise cell is absent exactly when the matching sunset cell
is absent — columnwise, the absence masks of the paired columns agree. -/
theorem C9_absence_occurs_in_pairs
    (latitude longitude timezone_offset : ℝ) (year : Nat) :
    (yearly_sun_times_dataframe latitude longitude timezone_offset year).official_sunrise.map
          Option.isNone =
        (yearly_sun_times_dataframe latitude longitude timezone_offset year).official_sunset.map
          Option.isNone
      ∧ (yearly_sun_times_dataframe latitude longitude timezone_offset year).civil_sunrise.map
          Option.isNone =
        (yearly_sun_times_dataframe latitude longitude timezone_offset year).civil_sunset.map
          Option.isNone
      ∧ (yearly_sun_times_dataframe latitude longitude timezone_offset year).nautical_sunrise.map
          Option.isNone =
        (yearly_sun_times_dataframe latitude longitude timezone_offset year).nautical_sunset.map
          Option.isNone
      ∧ (yearly_sun_times_dataframe latitude longitude timezone_offset year).astronomical_sunrise.map
          Option.isNone =
        (yearly_sun_times_dataframe latitude longitude timezone_offset year).astronomical_sunset.map
          Option.isNone := by
  rw [yearly_sun_times_dataframe, sweepLoop_eq]
  refine ⟨?_, ?_, ?_, ?_⟩ <;>
  · simp only [List.map_map]
    refine List.map_congr_left fun d _ => ?_
    simp only [Function.comp, sweepCell, if_pos, if_neg]
    exact cellPair_isNone_matched latitude longitude timezone_offset
      (date_to_julian_day d timezone_offset) _

set_option maxRecDepth 4000

theorem sweepLoop_dates (latitude longitude timezone_offset : ℝ)
    (fuel : Nat) (cur endD : Date) :
    (sweepLoop latitude longitude timezone_offset fuel cur endD).dates =
      loopDates fuel cur endD := by
  rw [sweepLoop_eq]

theorem chain'_of_chronological :
    ∀ l : List Date, chronological l = true →
      List.Chain' (fun a b : Date => a < b) l
  | [], _ => List.chain'_nil
  | [a], _ => List.chain'_singleton a
  | a :: b :: rest, h => by
      rw [chronological, Bool.and_eq_true] at h
      exact List.chain'_cons.mpr ⟨h.1, chain'_of_chronological (b :: rest) h.2⟩

/-- C7 (confirmed): for every latitude, longitude and UTC offset, the
sweep for 2024 has exactly 366 day records including February 29, the
sweep for 2023 has exactly 365, and both run chronologically from
January 1 to December 31. -/
theorem C7_year_lengths_and_order (latitude longitude timezone_offset : ℝ) :
    ((yearly_sun_times_dataframe latitude longitude timezone_offset 2024).dates.length = 366
      ∧ (⟨2024, 2, 29⟩ : Date) ∈
          (yearly_sun_times_dataframe latitude longitude timezone_offset 2024).dates
      ∧ (yearly_sun_times_dataframe latitude longitude timezone_offset 2024).dates.head? =
          some ⟨2024, 1, 1⟩
      ∧ (yearly_sun_times_dataframe latitude longitude timezone_offset 2024).dates.getLast? =
          some ⟨2024, 12, 31⟩
      ∧ List.Chain' (fun a b : Date => a < b)
          (yearly_sun_times_dataframe latitude longitude timezone_offset 2024).dates)
    ∧ ((yearly_sun_times_dataframe latitude longitude timezone_offset 2023).dates.length = 365
      ∧ (yearly_sun_times_dataframe latitude longitude timezone_offset 2023).dates.head? =
          some ⟨2023, 1, 1⟩
      ∧ (yearly_sun_times_dataframe latitude longitude timezone_offset 2023).dates.getLast? =
          some ⟨2023, 12, 31⟩
      ∧ List.Chain' (fun a b : Date => a < b)
          (yearly_sun_times_dataframe latitude longitude timezone_offset 2023).dates) := by
  rw [yearly_sun_times_dataframe, yearly_sun_times_dataframe,
    sweepLoop_dates, sweepLoop_dates]
  refine ⟨⟨?_, ?_, ?_, ?_, chain'_of_chronological _ ?_⟩, ?_, ?_, ?_,
    chain'_of_chronological _ ?_⟩ <;> decide

/-- C3 (corrected), counterexample: with latitude 95 the CLI validator
does reject, but the yearly sweep performs no coordinate validation at
all — it returns a complete 366-row table for latitude 95 instead of
failing fast with an invalid-coordinate error, refuting the claim that
every requested computation fails fast on an out-of-range coordinate. -/
theorem C3_counterexample :
    validate_config ⟨⟨2024, 6, 21⟩, none, 0, 95, 0⟩ = some .invalidLatitude
      ∧ (yearly_sun_times_dataframe 95 0 0 2024).dates.length = 366
      ∧ (yearly_sun_times_dataframe 95 0 0 2024).official_sunrise.length = 366
      ∧ (yearly_sun_times_dataframe 95 0 0 2024).astronomical_sunset.length = 366 := by
  refine ⟨?_, ?_, ?_, ?_⟩
  · rw [validate_config]
    rw [if_pos]
    norm_num
  · rw [yearly_sun_times_dataframe, sweepLoop_dates]
    decide
  · rw [yearly_sun_times_dataframe, sweepLoop_eq]
    show (List.map _ _).length = 366
    rw [List.length_map]
    decide
  · rw [yearly_sun_times_dataframe, sweepLoop_eq]
    show (List.map _ _).length = 366
    rw [List.length_map]
    decide

/-- C3 (amended): only the CLI path validates coordinates — `main` fails
fast with the invalid-latitude error, before any trigonometric evaluation,
whenever the configured latitude is out of range (the yearly sweep and the
core sunrise/sunset functions perform no such validation). -/
theorem C3_cli_fails_fast_on_bad_latitude (config : Config)
    (h : config.latitude < -90 ∨ 90 < config.latitude) :
    mainSolar config = .error .invalidLatitude := by
  have hbad : ¬(-90 ≤ config.latitude ∧ config.latitude ≤ 90) := by
    rcases h with h | h <;> intro hc <;> linarith [hc.1, hc.2]
  have hv : validate_config config = some .invalidLatitude := by
    rw [validate_config, if_pos hbad]
  simp only [mainSolar, hv]

/-- Witness for the amended C3 at the spec's example input latitude 95. -/
theorem C3_witness :
    mainSolar ⟨⟨2024, 6, 21⟩, none, 0, 95, 0⟩ = .error .invalidLatitude :=
  C3_cli_fails_fast_on_bad_latitude ⟨⟨2024, 6, 21⟩, none, 0, 95, 0⟩
    (Or.inr (by norm_num))

/-! ### Facts about the calculation chain at the J2000 epoch (century 0) -/

theorem radians_degrees (y : ℝ) : radians (degrees y) = y := by
  unfold radians degrees
  have hpi := Real.pi_ne_zero
  field_simp

theorem radians_zero : radians 0 = 0 := by
  unfold radians
  ring

theorem radians_90 : radians 90 = π / 2 := by
  unfold radians
  ring

theorem radians_60 : radians 60 = π / 3 := by
  unfold radians
  ring

theorem radians_le_radians {x y : ℝ} (h : x ≤ y) : radians x ≤ radians y := by
  unfold radians
  have hpi := Real.pi_pos
  nlinarith

theorem geom_mean_long_sun_zero : geom_mean_long_sun 0 = 280.46646 := by
  have hfl : ⌊(280.46646 : ℝ) / 360⌋ = 0 := by
    rw [Int.floor_eq_zero_iff, Set.mem_Ico]
    norm_num
  simp only [geom_mean_long_sun, pymod]
  norm_num [hfl]

theorem sun_eq_of_center_zero_bounds :
    -1.934884 ≤ sun_eq_of_center 0 ∧ sun_eq_of_center 0 ≤ 1.934884 := by
  simp only [sun_eq_of_center]
  constructor <;>
    nlinarith [Real.neg_one_le_sin (radians (geom_mean_anom_sun 0)),
      Real.sin_le_one (radians (geom_mean_anom_sun 0)),
      Real.neg_one_le_sin (2 * radians (geom_mean_anom_sun 0)),
      Real.sin_le_one (2 * radians (geom_mean_anom_sun 0)),
      Real.neg_one_le_sin (3 * radians (geom_mean_anom_sun 0)),
      Real.sin_le_one (3 * radians (geom_mean_anom_sun 0))]

theorem sun_apparent_long_zero_bounds :
    278.5 < sun_apparent_long 0 ∧ sun_apparent_long 0 < 282.5 := by
  obtain ⟨h1, h2⟩ := sun_eq_of_center_zero_bounds
  have hs1 := Real.neg_one_le_sin (radians (125.04 - 1934.136 * 0))
  have hs2 := Real.sin_le_one (radians (125.04 - 1934.136 * 0))
  simp only [sun_apparent_long, sun_true_long, geom_mean_long_sun_zero]
  constructor <;> nlinarith

theorem obliq_corr_zero_bounds : 23.43 < obliq_corr 0 ∧ obliq_corr 0 < 23.45 := by
  have h1 := Real.neg_one_le_cos (radians (125.04 - 1934.136 * 0))
  have h2 := Real.cos_le_one (radians (125.04 - 1934.136 * 0))
  simp only [obliq_corr, mean_obliq_ecliptic]
  constructor <;> nlinarith

theorem sin_applong_zero_le :
    Real.sin (radians (sun_apparent_long 0)) ≤ -(Real.sqrt 3 / 2) := by
  obtain ⟨hL1, hL2⟩ := sun_apparent_long_zero_bounds
  have hpi := Real.pi_pos
  have key : radians (sun_apparent_long 0) =
      2 * π - radians (360 - sun_apparent_long 0) := by
    unfold radians
    ring
  rw [key, Real.sin_two_pi_sub, neg_le_neg_iff]
  have hv1 : π / 3 ≤ radians (360 - sun_apparent_long 0) := by
    rw [← radians_60]
    exact radians_le_radians (by linarith)
  have hv2 : radians (360 - sun_apparent_long 0) ≤ π / 2 := by
    rw [← radians_90]
    exact radians_le_radians (by linarith)
  calc Real.sqrt 3 / 2 = Real.sin (π / 3) := (Real.sin_pi_div_three).symm
    _ ≤ Real.sin (radians (360 - sun_apparent_long 0)) :=
        Real.sin_le_sin_of_le_of_le_pi_div_two (by linarith) hv2 hv1

theorem sin_obliq_zero_bounds :
    0.39 < Real.sin (radians (obliq_corr 0)) ∧ Real.sin (radians (obliq_corr 0)) < 0.41 := by
  obtain ⟨h1, h2⟩ := obliq_corr_zero_bounds
  have hx1 : 0.408 < radians (obliq_corr 0) := by
    unfold radians
    nlinarith [Real.pi_gt_d6]
  have hx2 : radians (obliq_corr 0) < 0.41 := by
    unfold radians
    nlinarith [Real.pi_lt_d6]
  constructor
  · have hcube := Real.sin_gt_sub_cube (by linarith : (0:ℝ) < radians (obliq_corr 0))
      (by linarith : radians (obliq_corr 0) ≤ 1)
    have hx3 : radians (obliq_corr 0) ^ 3 < 0.069 := by
      have := pow_lt_pow_left₀ hx2
        (by linarith : (0:ℝ) ≤ radians (obliq_corr 0)) (by norm_num : 3 ≠ 0)
      nlinarith
    linarith
  · exact lt_trans (Real.sin_lt (by linarith)) hx2

theorem sint_zero_bounds :
    Real.sin (radians (obliq_corr 0)) * Real.sin (radians (sun_apparent_long 0)) ≤ -0.337
      ∧ -0.41 ≤ Real.sin (radians (obliq_corr 0)) * Real.sin (radians (sun_apparent_long 0)) := by
  obtain ⟨ho1, ho2⟩ := sin_obliq_zero_bounds
  have ha := sin_applong_zero_le
  have ha2 := Real.neg_one_le_sin (radians (sun_apparent_long 0))
  have hs3 : (1.732 : ℝ) ≤ Real.sqrt 3 :=
    (Real.le_sqrt (by norm_num) (by norm_num)).mpr (by norm_num)
  constructor <;> nlinarith

theorem radians_sun_declination_zero :
    radians (sun_declination 0) = Real.arcsin
      (Real.sin (radians (obliq_corr 0)) * Real.sin (radians (sun_apparent_long 0))) := by
  unfold sun_declination
  exact radians_degrees _

theorem cos_decl_zero_bounds :
    0.9 ≤ Real.cos (radians (sun_declination 0))
      ∧ Real.cos (radians (sun_declination 0)) ≤ 1 := by
  obtain ⟨hs1, hs2⟩ := sint_zero_bounds
  rw [radians_sun_declination_zero, Real.cos_arcsin]
  constructor
  · rw [Real.le_sqrt (by norm_num) (by nlinarith)]
    nlinarith
  · rw [Real.sqrt_le_one]
    nlinarith

theorem hour_angle_origin : hour_angle 0 0 0 = .ok 90 := by
  have hcd := cos_decl_zero_bounds
  have hdd : ¬(Real.cos (radians 0) * Real.cos (radians (sun_declination 0)) = 0) := by
    rw [radians_zero, Real.cos_zero, one_mul]
    intro h
    rw [h] at hcd
    linarith [hcd.1]
  have harg : cosArgExpr 0 0 0 = 0 := by
    unfold cosArgExpr
    rw [show (90.0 - (0:ℝ)) = 90 by norm_num, radians_90, Real.cos_pi_div_two,
      radians_zero, Real.tan_zero, Real.cos_zero]
    simp
  rw [hour_angle, if_neg hdd, harg, if_neg (by norm_num), Real.arccos_zero]
  have : degrees (π / 2) = 90 := by
    unfold degrees
    have hpi := Real.pi_ne_zero
    field_simp
    ring
  rw [this]

theorem julian_century_j2000 : julian_century 2451545 = 0 := by
  unfold julian_century
  norm_num

theorem sunrise_origin :
    sunrise 0 0 0 2451545 0 = .ok (solar_noon 0 0 2451545 - 90 / 15) := by
  rw [sunrise_eq_map, julian_century_j2000, hour_angle_origin]
  rfl

theorem sunset_origin :
    sunset 0 0 0 2451545 0 = .ok (solar_noon 0 0 2451545 + 90 / 15) := by
  rw [sunset_eq_map, julian_century_j2000, hour_angle_origin]
  rfl

/-- C5 (confirmed): at the equator, whenever the hour angle is defined the
sunrise and sunset times are exactly symmetric around solar noon, hence
within the claimed `1e-6`-hour tolerance, for every elevation threshold and
every day. -/
theorem C5_equator_symmetry
    (longitude timezone_offset julian_day solar_elevation r s : ℝ)
    (hr : sunrise 0 longitude timezone_offset julian_day solar_elevation = .ok r)
    (hs : sunset 0 longitude timezone_offset julian_day solar_elevation = .ok s) :
    |(solar_noon longitude timezone_offset julian_day - r)
      - (s - solar_noon longitude timezone_offset julian_day)| ≤ 1e-6 := by
  rw [sunrise_eq_map] at hr
  rw [sunset_eq_map] at hs
  cases hha : hour_angle 0 (julian_century julian_day) solar_elevation with
  | error e =>
      rw [hha] at hr
      exact absurd hr (by simp [Except.map])
  | ok ha =>
      rw [hha] at hr hs
      simp only [Except.map] at hr hs
      cases hr
      cases hs
      norm_num

theorem C5_witness :
    |(solar_noon 0 0 2451545 - (solar_noon 0 0 2451545 - 90 / 15))
      - ((solar_noon 0 0 2451545 + 90 / 15) - solar_noon 0 0 2451545)| ≤ 1e-6 :=
  C5_equator_symmetry 0 0 2451545 0 _ _ sunrise_origin sunset_origin

/-- C10 (confirmed): a defined hour angle always lies in `[0, 180]`
degrees, so sunrise is at or before solar noon, sunset at or after it, and
the daylight span is at most 24 hours. -/
theorem C10_hour_angle_range_and_ordering
    (latitude longitude timezone_offset julian_day solar_elevation h r s : ℝ)
    (hha : hour_angle latitude (julian_century julian_day) solar_elevation = .ok h)
    (hr : sunrise latitude longitude timezone_offset julian_day solar_elevation = .ok r)
    (hs : sunset latitude longitude timezone_offset julian_day solar_elevation = .ok s) :
    (0 ≤ h ∧ h ≤ 180)
      ∧ r ≤ solar_noon longitude timezone_offset julian_day
      ∧ solar_noon longitude timezone_offset julian_day ≤ s
      ∧ s - r ≤ 24 := by
  have hpi := Real.pi_pos
  have hval : ∃ c, h = degrees (Real.arccos c) := by
    rw [hour_angle] at hha
    by_cases h1 : Real.cos (radians latitude)
        * Real.cos (radians (sun_declination (julian_century julian_day))) = 0
    · rw [if_pos h1] at hha
      cases hha
    · rw [if_neg h1] at hha
      by_cases h2 : cosArgExpr latitude (julian_century julian_day) solar_elevation < -1
          ∨ 1 < cosArgExpr latitude (julian_century julian_day) solar_elevation
      · rw [if_pos h2] at hha
        cases hha
      · rw [if_neg h2] at hha
        cases hha
        exact ⟨_, rfl⟩
  obtain ⟨c, rfl⟩ := hval
  have hrange : 0 ≤ degrees (Real.arccos c) ∧ degrees (Real.arccos c) ≤ 180 := by
    have h0 := Real.arccos_nonneg c
    have h1 := Real.arccos_le_pi c
    unfold degrees
    constructor
    · positivity
    · rw [div_le_iff₀ hpi]
      nlinarith
  refine ⟨hrange, ?_, ?_, ?_⟩ <;>
  · rw [sunrise_eq_map, hha] at hr
    rw [sunset_eq_map, hha] at hs
    simp only [Except.map] at hr hs
    cases hr
    cases hs
    obtain ⟨ha0, ha180⟩ := hrange
    linarith

theorem C10_witness :
    ((0:ℝ) ≤ 90 ∧ (90:ℝ) ≤ 180)
      ∧ solar_noon 0 0 2451545 - 90 / 15 ≤ solar_noon 0 0 2451545
      ∧ solar_noon 0 0 2451545 ≤ solar_noon 0 0 2451545 + 90 / 15
      ∧ (solar_noon 0 0 2451545 + 90 / 15) - (solar_noon 0 0 2451545 - 90 / 15) ≤ 24 :=
  C10_hour_angle_range_and_ordering 0 0 0 2451545 0 90 _ _
    (by rw [julian_century_j2000]; exact hour_angle_origin) sunrise_origin sunset_origin

theorem jd_j2000 : date_to_julian_day_dt ⟨2000, 1, 1, 12, 0, 0, 0⟩ 0 = 2451545 := by
  have h0 : round ((0:ℝ) * 3600000000) = 0 := by norm_num
  unfold date_to_julian_day_dt
  rw [h0]
  have h1 : dtSubMicro ⟨2000, 1, 1, 12, 0, 0, 0⟩ 0 = ⟨2000, 1, 1, 12, 0, 0, 0⟩ := by decide
  rw [h1]
  dsimp only
  have h2 : jdnFromComponents 2000 1 1 = 2451545 := by decide
  rw [h2]
  norm_num

/-- C6 (confirmed): converting the calendar instant 2000-01-01T12:00:00
with UTC offset 0 to a Julian Day and then to a Julian Century gives
exactly the J2000.0 reference epoch, so the Julian Century is 0 within
`1e-6`. -/
theorem C6_j2000_round_trip :
    |julian_century (date_to_julian_day_dt ⟨2000, 1, 1, 12, 0, 0, 0⟩ 0) - 0| ≤ 1e-6 := by
  rw [jd_j2000, julian_century_j2000]
  norm_num

/-! ### Formatter arithmetic -/

theorem real_floor_div_24 (x : ℝ) : ⌊x / 24⌋ = ⌊x⌋ / 24 := by
  have h24 : (0:ℝ) < 24 := by norm_num
  have hmod := Int.emod_nonneg ⌊x⌋ (by norm_num : (24:ℤ) ≠ 0)
  have hmod2 := Int.emod_lt_of_pos ⌊x⌋ (by norm_num : (0:ℤ) < 24)
  have hdm := Int.ediv_add_emod ⌊x⌋ 24
  have hdmR : (24:ℝ) * ((⌊x⌋ / 24 : ℤ) : ℝ) + ((⌊x⌋ % 24 : ℤ) : ℝ) = (⌊x⌋ : ℝ) := by
    exact_mod_cast hdm
  have hmodR : (0:ℝ) ≤ ((⌊x⌋ % 24 : ℤ) : ℝ) := by exact_mod_cast hmod
  have hmod2R : ((⌊x⌋ % 24 : ℤ) : ℝ) + 1 ≤ 24 := by exact_mod_cast hmod2
  have hfl := Int.floor_le x
  have hfl2 := Int.lt_floor_add_one x
  rw [Int.floor_eq_iff]
  constructor
  · rw [le_div_iff₀ h24]
    linarith
  · rw [div_lt_iff₀ h24]
    linarith

theorem wrap24_nonneg (x : ℝ) : 0 ≤ wrap24 x := by
  unfold wrap24
  linarith [Int.floor_le (x / 24)]

theorem wrap24_lt (x : ℝ) : wrap24 x < 24 := by
  unfold wrap24
  linarith [Int.lt_floor_add_one (x / 24)]

theorem floor_wrap24 (x : ℝ) : ⌊wrap24 x⌋ = ⌊x⌋ % 24 := by
  unfold wrap24
  have hc : x - 24 * (⌊x / 24⌋ : ℝ) = x - ((24 * ⌊x / 24⌋ : ℤ) : ℝ) := by
    push_cast
    ring
  rw [hc, Int.floor_sub_int, real_floor_div_24, Int.emod_def]

theorem wrap24_fract (x : ℝ) : wrap24 x - (⌊wrap24 x⌋ : ℝ) = x - (⌊x⌋ : ℝ) := by
  rw [floor_wrap24, Int.emod_def]
  unfold wrap24
  rw [real_floor_div_24]
  push_cast
  ring

theorem pyInt_of_nonneg {x : ℝ} (h : 0 ≤ x) : pyInt x = ⌊x⌋ := by
  rw [pyInt, if_pos h]

/-- C8 (amended, theorem): the table formatter of
`noaa_solar_calculations.py` satisfies the floor-based `HH:MM:SS` contract
for every decimal-hours value and maps an absent input to the absent
marker; the CLI formatter of `solar_times.py` satisfies the contract for
every nonnegative value and renders an absent input as the distinguished
string `"N/A"` (for negative values it diverges, see the
counterexample). -/
theorem C8_formatter_contract (x : ℝ) :
    decimal_hours_to_time_string (some x) = some (specHMS x)
      ∧ decimal_hours_to_time_string none = none
      ∧ decimal_hours_to_time_string_cli none = "N/A"
      ∧ (0 ≤ x → decimal_hours_to_time_string_cli (some x) = specHMS x) := by
  have hw0 := wrap24_nonneg x
  have hm0 : (0:ℝ) ≤ (x - (⌊x⌋:ℝ)) * 60 := by
    have := Int.floor_le x
    linarith
  have hs0 : (0:ℝ) ≤ ((x - (⌊x⌋:ℝ)) * 60 - (⌊(x - (⌊x⌋:ℝ)) * 60⌋:ℝ)) * 60 := by
    have := Int.floor_le ((x - (⌊x⌋:ℝ)) * 60)
    linarith
  refine ⟨?_, rfl, rfl, fun hx => ?_⟩
  · simp only [decimal_hours_to_time_string, specHMS]
    rw [pyInt_of_nonneg hw0, wrap24_fract, floor_wrap24,
      pyInt_of_nonneg hm0, pyInt_of_nonneg hs0]
    rfl
  · simp only [decimal_hours_to_time_string_cli, specHMS]
    rw [pyInt_of_nonneg hx, pyInt_of_nonneg hm0, pyInt_of_nonneg hs0]

theorem C8_witness :
    decimal_hours_to_time_string (some (11/2 : ℝ)) = some (specHMS (11/2))
      ∧ decimal_hours_to_time_string_cli (some (11/2 : ℝ)) = specHMS (11/2) :=
  ⟨(C8_formatter_contract (11/2)).1,
    (C8_formatter_contract (11/2)).2.2.2 (by norm_num)⟩

/-- C8 (corrected), counterexample: the CLI formatter truncates with
Python `int` (toward zero), so on the negative input `-5.5` it renders
`"19:-30:00"`, while the claimed floor-based formula gives `"18:30:00"`:
the claim fails for the `solar_times.py` formatter on negative
decimal-hours values. -/
theorem C8_counterexample :
    decimal_hours_to_time_string_cli (some (-11/2 : ℝ)) = "19:-30:00"
      ∧ specHMS (-11/2 : ℝ) = "18:30:00"
      ∧ decimal_hours_to_time_string_cli (some (-11/2 : ℝ)) ≠ specHMS (-11/2 : ℝ) := by
  have h1 : pyInt (-11/2 : ℝ) = -5 := by
    rw [pyInt, if_neg (by norm_num), Int.ceil_eq_iff]
    norm_num
  have h2 : ((-11/2 : ℝ) - ((-5 : ℤ) : ℝ)) * 60 = -30 := by
    push_cast
    ring
  have h3 : pyInt (-30 : ℝ) = -30 := by
    rw [pyInt, if_neg (by norm_num), Int.ceil_eq_iff]
    norm_num
  have h4 : ((-30 : ℝ) - ((-30 : ℤ) : ℝ)) * 60 = 0 := by
    push_cast
    ring
  have h5 : pyInt (0 : ℝ) = 0 := by
    rw [pyInt, if_pos le_rfl]
    norm_num
  have hcli : decimal_hours_to_time_string_cli (some (-11/2 : ℝ)) = "19:-30:00" := by
    simp only [decimal_hours_to_time_string_cli, h1, h2, h3, h4, h5]
    decide
  have hfl : ⌊(-11/2 : ℝ)⌋ = -6 := by norm_num
  have h6 : ((-11/2 : ℝ) - ((-6 : ℤ) : ℝ)) * 60 = 30 := by
    push_cast
    ring
  have h7 : ⌊(30 : ℝ)⌋ = 30 := by norm_num
  have h8 : ((30 : ℝ) - ((30 : ℤ) : ℝ)) * 60 = 0 := by
    push_cast
    ring
  have h9 : ⌊(0 : ℝ)⌋ = 0 := by norm_num
  have hspec : specHMS (-11/2 : ℝ) = "18:30:00" := by
    simp only [specHMS, hfl, h6, h7, h8, h9]
    decide
  refine ⟨hcli, hspec, ?_⟩
  rw [hcli, hspec]
  decide

/-! ### A polar configuration on which the hour angle is undefined -/

theorem polar_facts :
    1 < cosArgExpr 89.9 0 (-0.833)
      ∧ hour_angle 89.9 0 (-0.833) = .error .valueError := by
  obtain ⟨hs1, hs2⟩ := sint_zero_bounds
  obtain ⟨hcd1, hcd2⟩ := cos_decl_zero_bounds
  have hcdpos : (0:ℝ) < Real.cos (radians (sun_declination 0)) := by linarith
  have hpi := Real.pi_pos
  have hpi3 := Real.pi_gt_three
  have hr01a : (0:ℝ) < radians 0.1 := by
    unfold radians
    nlinarith
  have hr01b : radians 0.1 < 0.0018 := by
    unfold radians
    nlinarith [Real.pi_lt_d6]
  have hr0833a : (0:ℝ) < radians 0.833 := by
    unfold radians
    nlinarith
  have hr0833b : radians 0.833 < 0.01454 := by
    unfold radians
    nlinarith [Real.pi_lt_d6]
  have hsinL : Real.sin (radians 89.9) = Real.cos (radians 0.1) := by
    rw [show radians 89.9 = π / 2 - radians 0.1 by unfold radians; ring,
      Real.sin_pi_div_two_sub]
  have hcosL : Real.cos (radians 89.9) = Real.sin (radians 0.1) := by
    rw [show radians 89.9 = π / 2 - radians 0.1 by unfold radians; ring,
      Real.cos_pi_div_two_sub]
  have hcos90833 : Real.cos (radians (90.0 - (-0.833))) = -Real.sin (radians 0.833) := by
    rw [show (90.0 - (-0.833) : ℝ) = 0.833 + 90 by norm_num,
      show radians (0.833 + 90) = radians 0.833 + π / 2 by unfold radians; ring,
      Real.cos_add_pi_div_two]
  have hs01a : 0 < Real.sin (radians 0.1) :=
    Real.sin_pos_of_pos_of_lt_pi hr01a (by linarith)
  have hs01b : Real.sin (radians 0.1) < 0.0018 := lt_trans (Real.sin_lt hr01a) hr01b
  have hsin0833b : Real.sin (radians 0.833) < 0.01454 :=
    lt_trans (Real.sin_lt hr0833a) hr0833b
  have hsin0833a : 0 < Real.sin (radians 0.833) :=
    Real.sin_pos_of_pos_of_lt_pi hr0833a (by linarith)
  have hc01 : 0.999 ≤ Real.cos (radians 0.1) := by
    have habs : |radians (0.1 : ℝ)| ≤ 1 := by
      rw [abs_of_pos hr01a]
      linarith
    have hb := Real.cos_bound habs
    rw [abs_of_pos hr01a] at hb
    have hb' := (abs_le.mp hb).1
    have hy2 : radians (0.1:ℝ) ^ 2 < 0.0018 ^ 2 :=
      pow_lt_pow_left₀ hr01b (le_of_lt hr01a) (by norm_num)
    have hy4 : radians (0.1:ℝ) ^ 4 < 0.0018 ^ 4 :=
      pow_lt_pow_left₀ hr01b (le_of_lt hr01a) (by norm_num)
    nlinarith [hb', hy2, hy4]
  have hc01b : Real.cos (radians 0.1) ≤ 1 := Real.cos_le_one _
  have hsindecl : Real.sin (radians (sun_declination 0)) =
      Real.sin (radians (obliq_corr 0)) * Real.sin (radians (sun_apparent_long 0)) := by
    rw [radians_sun_declination_zero, Real.sin_arcsin (by linarith) (by linarith)]
  have htanD : Real.tan (radians (sun_declination 0)) =
      (Real.sin (radians (obliq_corr 0)) * Real.sin (radians (sun_apparent_long 0)))
        / Real.cos (radians (sun_declination 0)) := by
    rw [Real.tan_eq_sin_div_cos, hsindecl]
  have htanL : Real.tan (radians 89.9) =
      Real.cos (radians 0.1) / Real.sin (radians 0.1) := by
    rw [Real.tan_eq_sin_div_cos, hsinL, hcosL]
  have hkey : cosArgExpr 89.9 0 (-0.833) =
      (-Real.sin (radians 0.833) - Real.cos (radians 0.1)
          * (Real.sin (radians (obliq_corr 0)) * Real.sin (radians (sun_apparent_long 0))))
        / (Real.sin (radians 0.1) * Real.cos (radians (sun_declination 0))) := by
    unfold cosArgExpr
    rw [hcos90833, hcosL, htanL, htanD]
    field_simp
    ring
  have hA : 1 < cosArgExpr 89.9 0 (-0.833) := by
    rw [hkey, one_lt_div (by positivity)]
    nlinarith
  refine ⟨hA, ?_⟩
  have hdd : ¬(Real.cos (radians 89.9) * Real.cos (radians (sun_declination 0)) = 0) := by
    rw [hcosL]
    positivity
  rw [hour_angle, if_neg hdd, if_pos (Or.inr hA)]

/-- C1 (amended, theorem): whenever the hour-angle computation is
undefined (raises) for a latitude, day and threshold, the yearly sweep
records that cell pair as explicitly absent and never fabricates a
number, while the single-instant `sunrise`/`sunset` operations propagate
the same exception uncaught rather than returning a value. -/
theorem C1_undefined_event_handling
    (latitude longitude timezone_offset julian_day elevation : ℝ) (e : PyErr)
    (hha : hour_angle latitude (julian_century julian_day) elevation = .error e) :
    sunrise latitude longitude timezone_offset julian_day elevation = .error e
      ∧ sunset latitude longitude timezone_offset julian_day elevation = .error e
      ∧ cellPair latitude longitude timezone_offset julian_day elevation = (none, none) := by
  refine ⟨?_, ?_, cellPair_of_error _ _ _ _ _ e hha⟩
  · rw [sunrise_eq_map, hha]
    rfl
  · rw [sunset_eq_map, hha]
    rfl

theorem C1_witness :
    sunrise 89.9 0 0 2451545 (-0.833) = .error .valueError
      ∧ sunset 89.9 0 0 2451545 (-0.833) = .error .valueError
      ∧ cellPair 89.9 0 0 2451545 (-0.833) = (none, none) :=
  C1_undefined_event_handling 89.9 0 0 2451545 (-0.833) .valueError
    (by rw [julian_century_j2000]; exact polar_facts.2)

/-- C1 (corrected), counterexample: on the valid polar configuration
latitude 89.9, longitude 0, UTC offset 0, date 2000-01-01 at the default
official threshold, the hour-angle argument exceeds 1 (polar night), and
the single-instant CLI calculation terminates with the uncaught
`ValueError` rather than an explicit no-value result — the claim fails for
the single-instant operation. -/
theorem C1_counterexample :
    1 < cosArgExpr 89.9
        (julian_century (date_to_julian_day_dt ⟨2000, 1, 1, 12, 0, 0, 0⟩ 0)) (-0.833)
      ∧ mainSolar ⟨⟨2000, 1, 1⟩, none, 0, 89.9, 0⟩ = .error (.uncaught .valueError) := by
  constructor
  · rw [jd_j2000, julian_century_j2000]
    exact polar_facts.1
  · have hv : validate_config ⟨⟨2000, 1, 1⟩, none, 0, 89.9, 0⟩ = none := by
      simp only [validate_config]
      norm_num
      decide
    have hdt : (⟨(((2000 : Nat) : Int)), 1, 1, 12, 0, 0, 0⟩ : DateTime) =
        ⟨2000, 1, 1, 12, 0, 0, 0⟩ := by decide
    simp only [mainSolar, hv, Option.getD]
    rw [hdt, jd_j2000, julian_century_j2000, polar_facts.2]
